import Mathlib

/-
Verification of the robinhood-integration adapter.

Shallow embedding of the core of the repository:
  * src/api/client.ts        (RobinhoodClient: interceptors, authenticate,
                              refreshAccessToken, paginate, isAuthenticated)
  * src/mappers/portfolio-mapper.ts (PortfolioMapper: pure mapping functions)
  * src/services/robinhood-service.ts (RobinhoodService: orchestration)
  * src/types.ts and src/models/standardized.ts (data model)

JavaScript numbers that flow through the mapper are modelled as
Option Rat: some q is the ordinary numeric value q, none is NaN.  Every
division in the source is guarded by a strict nonzero test on the
denominator, so JS infinities never arise in the modelled computations.
String-encoded upstream numeric fields are modelled by the inductive
UpStr, which distinguishes the cases that the source code distinguishes
through JS truthiness and parseFloat.
-/

namespace Robinhood

/-- Model of an upstream string-typed field as the code consumes it.
absent covers undefined and null, empty is the empty string, num q is a
string on which JS parseFloat returns the value q, and junk is a
non-empty string on which parseFloat returns NaN. -/
inductive UpStr where
  | absent
  | empty
  | num (q : ℚ)
  | junk
deriving Repr, DecidableEq

/-- JS truthiness of an UpStr value: undefined, null and the empty string
are falsy; every non-empty string (including the string 0) is truthy. -/
def UpStr.truthy : UpStr → Bool
  | .absent => false
  | .empty => false
  | _ => true

/-- JS logical or on string fields: a or b yields a when a is truthy,
otherwise b. -/
def jsOr (a b : UpStr) : UpStr := if a.truthy then a else b

/-- JS optional chaining o?.f: undefined when o is null/undefined. -/
def optField {α : Type} (o : Option α) (f : α → UpStr) : UpStr :=
  match o with
  | some x => f x
  | none => .absent

/-- A JS number in the fragment the mapper exercises: some q is the
ordinary value q, none is NaN. -/
abbrev JSNum := Option ℚ

/-- JS parseFloat applied to an upstream string field.  parseFloat of
undefined, null, the empty string or a junk string is NaN. -/
def parseFloat : UpStr → JSNum
  | .num q => some q
  | _ => none

/-- JS multiplication; NaN propagates. -/
def jmul : JSNum → JSNum → JSNum
  | some a, some b => some (a * b)
  | _, _ => none

/-- JS subtraction; NaN propagates. -/
def jsub : JSNum → JSNum → JSNum
  | some a, some b => some (a - b)
  | _, _ => none

/-- The JS strict test x !== 0: true for NaN. -/
def jneZero : JSNum → Bool
  | some a => decide (a ≠ 0)
  | none => true

/-- JS division as used in the mapper.  Every division in the source sits
under a jneZero guard on its denominator, so some a / some 0 (a JS
infinity) is unreachable; it is collapsed to none here. -/
def jdiv : JSNum → JSNum → JSNum
  | some a, some b => if b = 0 then none else some (a / b)
  | _, _ => none

/-- Model of a JS Date value: ofString s is new Date(s), now is
new Date() with no argument. -/
inductive DateV where
  | ofString (s : String)
  | now
deriving Repr, DecidableEq

/- ---------------------------------------------------------------- -/
/- Upstream (brokerage-shaped) records, from src/types.ts.  Only the
   fields the core reads are carried; the remaining upstream fields are
   never consumed by the mapper or service and are elided. -/
/- ---------------------------------------------------------------- -/

/-- The cashBalances sub-record of RobinhoodAccount (src/types.ts). -/
structure CashBalances where
  cash : UpStr
  unclearedDeposits : UpStr
  unsettledFunds : UpStr
deriving Repr, DecidableEq

/-- RobinhoodAccount (src/types.ts); cashBalances is read through
optional chaining in the mapper, hence Option. -/
structure RobinhoodAccount where
  url : String
  buyingPower : UpStr
  cashBalances : Option CashBalances
  accountNumber : String
  type : String
  created : String
  updated : String
deriving Repr, DecidableEq

/-- RobinhoodPosition (src/types.ts). -/
structure RobinhoodPosition where
  url : String
  instrument : String
  averageBuyPrice : UpStr
  quantity : UpStr
  updatedAt : String
deriving Repr, DecidableEq

/-- RobinhoodInstrument (src/types.ts). -/
structure RobinhoodInstrument where
  id : String
  url : String
  market : String
  name : String
  symbol : String
  type : String
deriving Repr, DecidableEq

/-- RobinhoodQuote (src/types.ts); askSize and bidSize are plain JS
numbers upstream. -/
structure RobinhoodQuote where
  askPrice : UpStr
  askSize : ℚ
  bidPrice : UpStr
  bidSize : ℚ
  lastTradePrice : UpStr
  previousClose : UpStr
  symbol : String
  tradingHalted : Bool
  updatedAt : String
deriving Repr, DecidableEq

/-- RobinhoodOrder (src/types.ts); averagePrice and price may be null. -/
structure RobinhoodOrder where
  id : String
  url : String
  instrument : String
  averagePrice : UpStr
  fees : UpStr
  state : String
  side : String
  price : UpStr
  quantity : UpStr
  created : String
deriving Repr, DecidableEq

/-- RobinhoodDividend (src/types.ts). -/
structure RobinhoodDividend where
  id : String
  instrument : String
  amount : UpStr
  withholding : UpStr
  recordDate : String
  payableDate : String
  state : String
deriving Repr, DecidableEq

/-- One bar of RobinhoodHistoricals.historicals (src/types.ts). -/
structure HistoricalBar where
  beginsAt : String
  openPrice : UpStr
  closePrice : UpStr
  highPrice : UpStr
  lowPrice : UpStr
  volume : ℚ
deriving Repr, DecidableEq

/-- RobinhoodHistoricals (src/types.ts). -/
structure RobinhoodHistoricals where
  symbol : String
  interval : String
  historicals : List HistoricalBar
deriving Repr, DecidableEq

/-- RobinhoodWatchlist (src/types.ts). -/
structure RobinhoodWatchlist where
  url : String
  name : String
  createdAt : String
  updatedAt : String
deriving Repr, DecidableEq

/-- RobinhoodPortfolio (src/types.ts). -/
structure RobinhoodPortfolio where
  market_value : UpStr
  equity : UpStr
  lastCoreEquity : UpStr
deriving Repr, DecidableEq

/- ---------------------------------------------------------------- -/
/- Standardized output records, from src/models/standardized.ts.
   Enumerated string unions are modelled as String; TS optional fields
   are Option.  Field names follow the interfaces exactly; note that
   StandardizedPosition.metadata, StandardizedBalance and
   StandardizedQuote declare no source field at all. -/
/- ---------------------------------------------------------------- -/

/-- metadata of StandardizedPosition: instrumentId, instrumentUrl,
positionUrl, lastUpdated and nothing else (no source field). -/
structure PositionMetadata where
  instrumentId : Option String
  instrumentUrl : Option String
  positionUrl : Option String
  lastUpdated : DateV
deriving Repr, DecidableEq

/-- StandardizedPosition (src/models/standardized.ts). -/
structure StandardizedPosition where
  id : String
  symbol : String
  name : String
  type : String
  quantity : JSNum
  averageCost : JSNum
  currentPrice : JSNum
  marketValue : JSNum
  dayChange : JSNum
  dayChangePercent : JSNum
  totalGainLoss : JSNum
  totalGainLossPercent : JSNum
  currency : String
  exchange : Option String
  metadata : PositionMetadata
deriving Repr, DecidableEq

/-- metadata of StandardizedPortfolio. -/
structure PortfolioMetadata where
  source : String
  lastUpdated : DateV
  currency : String
deriving Repr, DecidableEq

/-- StandardizedPortfolio (src/models/standardized.ts). -/
structure StandardizedPortfolio where
  id : String
  accountNumber : String
  accountType : String
  totalValue : JSNum
  cashBalance : JSNum
  buyingPower : JSNum
  dayChange : JSNum
  dayChangePercent : JSNum
  totalGainLoss : JSNum
  totalGainLossPercent : JSNum
  positions : List StandardizedPosition
  metadata : PortfolioMetadata
deriving Repr, DecidableEq

/-- metadata of StandardizedTransaction. -/
structure TransactionMetadata where
  orderId : Option String
  orderUrl : Option String
  source : String
deriving Repr, DecidableEq

/-- StandardizedTransaction (src/models/standardized.ts); symbol and
name are optional in the interface and the mapper passes
instrument?.symbol / instrument?.name straight through. -/
structure StandardizedTransaction where
  id : String
  type : String
  symbol : Option String
  name : Option String
  quantity : JSNum
  price : JSNum
  amount : JSNum
  fee : JSNum
  date : DateV
  status : String
  currency : String
  metadata : TransactionMetadata
deriving Repr, DecidableEq

/-- StandardizedBalance (src/models/standardized.ts): it has a
lastUpdated field but no source field. -/
structure StandardizedBalance where
  accountId : String
  cashBalance : JSNum
  unsettledCash : JSNum
  buyingPower : JSNum
  pendingDeposits : JSNum
  pendingWithdrawals : JSNum
  currency : String
  lastUpdated : DateV
deriving Repr, DecidableEq

/-- StandardizedQuote (src/models/standardized.ts): it has a lastUpdated
field but no source field. -/
structure StandardizedQuote where
  symbol : String
  name : Option String
  price : JSNum
  previousClose : JSNum
  change : JSNum
  changePercent : JSNum
  bid : JSNum
  ask : JSNum
  bidSize : ℚ
  askSize : ℚ
  lastUpdated : DateV
  currency : String
  exchange : Option String
  tradingHalted : Bool
deriving Repr, DecidableEq

/-- metadata of StandardizedDividend. -/
structure DividendMetadata where
  source : String
  dividendId : Option String
  withholding : JSNum
deriving Repr, DecidableEq

/-- StandardizedDividend (src/models/standardized.ts): the interface has
a single amount field (plus optional withholding inside metadata); it
declares no gross/net amount pair. -/
structure StandardizedDividend where
  id : String
  symbol : String
  amount : JSNum
  paymentDate : DateV
  exDividendDate : DateV
  recordDate : DateV
  status : String
  currency : String
  metadata : DividendMetadata
deriving Repr, DecidableEq

/-- HistoricalDataPoint (src/models/standardized.ts); the open field of
the interface is spelled openPrice here because open is a Lean keyword,
and high/low/close are spelled with the same Price suffix for
uniformity. -/
structure HistoricalDataPoint where
  timestamp : DateV
  openPrice : JSNum
  highPrice : JSNum
  lowPrice : JSNum
  closePrice : JSNum
  volume : ℚ
deriving Repr, DecidableEq

/-- metadata of StandardizedHistoricalData. -/
structure HistoricalMetadata where
  source : String
  startDate : DateV
  endDate : DateV
  currency : String
deriving Repr, DecidableEq

/-- StandardizedHistoricalData (src/models/standardized.ts). -/
structure StandardizedHistoricalData where
  symbol : String
  interval : String
  data : List HistoricalDataPoint
  metadata : HistoricalMetadata
deriving Repr, DecidableEq

/-- metadata of StandardizedWatchlist. -/
structure WatchlistMetadata where
  source : String
  url : Option String
deriving Repr, DecidableEq

/-- StandardizedWatchlist (src/models/standardized.ts). -/
structure StandardizedWatchlist where
  id : String
  name : String
  symbols : List String
  createdAt : DateV
  updatedAt : DateV
  metadata : WatchlistMetadata
deriving Repr, DecidableEq

/-- tradingPermissions of StandardizedAccount. -/
structure TradingPermissions where
  stocks : Bool
  options : Bool
  crypto : Bool
  forex : Bool
deriving Repr, DecidableEq

/-- metadata of StandardizedAccount. -/
structure AccountMetadata where
  source : String
  url : Option String
  lastUpdated : DateV
deriving Repr, DecidableEq

/-- StandardizedAccount (src/models/standardized.ts). -/
structure StandardizedAccount where
  id : String
  accountNumber : String
  type : String
  status : String
  openedDate : DateV
  isPrimary : Bool
  tradingPermissions : TradingPermissions
  marginEnabled : Bool
  optionsLevel : ℚ
  dayTradeCount : ℚ
  metadata : AccountMetadata
deriving Repr, DecidableEq

/-- StandardizedError (src/models/standardized.ts); the opaque details
payload is dropped from the model. -/
structure StandardizedError where
  code : String
  message : String
  timestamp : DateV
  source : String
deriving Repr, DecidableEq

/- ---------------------------------------------------------------- -/
/- PortfolioMapper (src/mappers/portfolio-mapper.ts), one definition per
   static method, line for line. -/
/- ---------------------------------------------------------------- -/

namespace PortfolioMapper

/-- PortfolioMapper.mapAccount (portfolio-mapper.ts lines 27 to 50). -/
def mapAccount (account : RobinhoodAccount) : StandardizedAccount :=
  { id := account.url
    accountNumber := account.accountNumber
    type := account.type
    status := "active"
    openedDate := .ofString account.created
    isPrimary := true
    tradingPermissions := { stocks := true, options := true, crypto := true, forex := false }
    marginEnabled := account.type = "margin"
    optionsLevel := 0
    dayTradeCount := 0
    metadata :=
      { source := "robinhood"
        url := some account.url
        lastUpdated := .ofString account.updated } }

/-- PortfolioMapper.mapPortfolio (portfolio-mapper.ts lines 52 to 81).
totalGainLoss and totalGainLossPercent are the literal constants 0 in
the source. -/
def mapPortfolio (account : RobinhoodAccount) (portfolio : RobinhoodPortfolio)
    (positions : List StandardizedPosition) : StandardizedPortfolio :=
  let totalValue := parseFloat (jsOr portfolio.market_value (.num 0))
  let equity := parseFloat (jsOr portfolio.equity (.num 0))
  let previousEquity := parseFloat (jsOr portfolio.lastCoreEquity (.num 0))
  let dayChange := jsub equity previousEquity
  let dayChangePercent :=
    if jneZero previousEquity then jmul (jdiv dayChange previousEquity) (some 100) else some 0
  { id := account.accountNumber
    accountNumber := account.accountNumber
    accountType := if account.type = "margin" then "margin" else "cash"
    totalValue := totalValue
    cashBalance := parseFloat (jsOr (optField account.cashBalances (fun c => c.cash)) (.num 0))
    buyingPower := parseFloat (jsOr account.buyingPower (.num 0))
    dayChange := dayChange
    dayChangePercent := dayChangePercent
    totalGainLoss := some 0
    totalGainLossPercent := some 0
    positions := positions
    metadata := { source := "robinhood", lastUpdated := .now, currency := "USD" } }

/-- PortfolioMapper.mapPosition (portfolio-mapper.ts lines 83 to 122).
The instrument parameter is required by the source signature; only the
quote is optional. -/
def mapPosition (position : RobinhoodPosition) (instrument : RobinhoodInstrument)
    (quote : Option RobinhoodQuote) : StandardizedPosition :=
  let quantity := parseFloat (jsOr position.quantity (.num 0))
  let averageCost := parseFloat (jsOr position.averageBuyPrice (.num 0))
  let currentPrice := parseFloat (jsOr (optField quote (fun q => q.lastTradePrice)) (.num 0))
  let marketValue := jmul quantity currentPrice
  let totalCost := jmul quantity averageCost
  let totalGainLoss := jsub marketValue totalCost
  let totalGainLossPercent :=
    if jneZero totalCost then jmul (jdiv totalGainLoss totalCost) (some 100) else some 0
  let previousClose := parseFloat (jsOr (optField quote (fun q => q.previousClose)) (.num 0))
  let dayChange := jsub currentPrice previousClose
  let dayChangePercent :=
    if jneZero previousClose then jmul (jdiv dayChange previousClose) (some 100) else some 0
  { id := position.url
    symbol := instrument.symbol
    name := instrument.name
    type := if instrument.type = "stock" then "stock" else "etf"
    quantity := quantity
    averageCost := averageCost
    currentPrice := currentPrice
    marketValue := marketValue
    dayChange := jmul dayChange quantity
    dayChangePercent := dayChangePercent
    totalGainLoss := totalGainLoss
    totalGainLossPercent := totalGainLossPercent
    currency := "USD"
    exchange := some instrument.market
    metadata :=
      { instrumentId := some instrument.id
        instrumentUrl := some instrument.url
        positionUrl := some position.url
        lastUpdated := .ofString position.updatedAt } }

/-- PortfolioMapper.mapBalance (portfolio-mapper.ts lines 124 to 135). -/
def mapBalance (account : RobinhoodAccount) : StandardizedBalance :=
  { accountId := account.accountNumber
    cashBalance := parseFloat (jsOr (optField account.cashBalances (fun c => c.cash)) (.num 0))
    unsettledCash :=
      parseFloat (jsOr (optField account.cashBalances (fun c => c.unsettledFunds)) (.num 0))
    buyingPower := parseFloat (jsOr account.buyingPower (.num 0))
    pendingDeposits :=
      parseFloat (jsOr (optField account.cashBalances (fun c => c.unclearedDeposits)) (.num 0))
    pendingWithdrawals := some 0
    currency := "USD"
    lastUpdated := .ofString account.updated }

/-- PortfolioMapper.mapQuote (portfolio-mapper.ts lines 137 to 159). -/
def mapQuote (quote : RobinhoodQuote) (instrument : Option RobinhoodInstrument) :
    StandardizedQuote :=
  let price := parseFloat (jsOr quote.lastTradePrice (.num 0))
  let previousClose := parseFloat (jsOr quote.previousClose (.num 0))
  let change := jsub price previousClose
  let changePercent :=
    if jneZero previousClose then jmul (jdiv change previousClose) (some 100) else some 0
  { symbol := quote.symbol
    name := instrument.map (fun i => i.name)
    price := price
    previousClose := previousClose
    change := change
    changePercent := changePercent
    bid := parseFloat (jsOr quote.bidPrice (.num 0))
    ask := parseFloat (jsOr quote.askPrice (.num 0))
    bidSize := quote.bidSize
    askSize := quote.askSize
    lastUpdated := .ofString quote.updatedAt
    currency := "USD"
    exchange := instrument.map (fun i => i.market)
    tradingHalted := quote.tradingHalted }

/-- PortfolioMapper.mapOrderStatus (portfolio-mapper.ts lines 244 to 263). -/
def mapOrderStatus (state : String) : String :=
  if state = "filled" ∨ state = "executed" then "completed"
  else if state = "cancelled" ∨ state = "canceled" then "cancelled"
  else if state = "failed" ∨ state = "rejected" then "failed"
  else "pending"

/-- PortfolioMapper.mapTransaction (portfolio-mapper.ts lines 161 to 185).
The price falls back through averagePrice, then price, then the literal
string 0; symbol and name are instrument?.symbol and instrument?.name. -/
def mapTransaction (order : RobinhoodOrder) (instrument : Option RobinhoodInstrument) :
    StandardizedTransaction :=
  let type := if order.side = "buy" then "buy" else "sell"
  let quantity := parseFloat (jsOr order.quantity (.num 0))
  let price := parseFloat (jsOr (jsOr order.averagePrice order.price) (.num 0))
  let amount := jmul quantity price
  { id := order.id
    type := type
    symbol := instrument.map (fun i => i.symbol)
    name := instrument.map (fun i => i.name)
    quantity := quantity
    price := price
    amount := amount
    fee := parseFloat (jsOr order.fees (.num 0))
    date := .ofString order.created
    status := mapOrderStatus order.state
    currency := "USD"
    metadata := { orderId := some order.id, orderUrl := some order.url, source := "robinhood" } }

/-- PortfolioMapper.mapInterval (portfolio-mapper.ts lines 265 to 283). -/
def mapInterval (interval : String) : String :=
  if interval = "5minute" ∨ interval = "10minute" ∨ interval = "15minute"
      ∨ interval = "30minute" then "minute"
  else if interval = "hour" then "hour"
  else if interval = "day" then "day"
  else if interval = "week" then "week"
  else if interval = "month" then "month"
  else "day"

/-- PortfolioMapper.mapHistoricalData (portfolio-mapper.ts lines 187 to
210).  The bar prices are parsed with no fallback in the source. -/
def mapHistoricalData (historicals : RobinhoodHistoricals) : StandardizedHistoricalData :=
  let data : List HistoricalDataPoint := historicals.historicals.map (fun point =>
    { timestamp := .ofString point.beginsAt
      openPrice := parseFloat point.openPrice
      highPrice := parseFloat point.highPrice
      lowPrice := parseFloat point.lowPrice
      closePrice := parseFloat point.closePrice
      volume := point.volume })
  { symbol := historicals.symbol
    interval := mapInterval historicals.interval
    data := data
    metadata :=
      { source := "robinhood"
        startDate := match data with | [] => DateV.now | p :: _ => p.timestamp
        endDate := match data.getLast? with | some p => p.timestamp | none => DateV.now
        currency := "USD" } }

/-- PortfolioMapper.mapWatchlist (portfolio-mapper.ts lines 212 to 224). -/
def mapWatchlist (watchlist : RobinhoodWatchlist) (symbols : List String) :
    StandardizedWatchlist :=
  { id := watchlist.url
    name := watchlist.name
    symbols := symbols
    createdAt := .ofString watchlist.createdAt
    updatedAt := .ofString watchlist.updatedAt
    metadata := { source := "robinhood", url := some watchlist.url } }

/-- PortfolioMapper.mapDividend (portfolio-mapper.ts lines 226 to 242).
The output amount is parseFloat(dividend.amount) with no fallback; the
symbol is instrument?.symbol with the empty string as fallback; the
withholding lands only in metadata. -/
def mapDividend (dividend : RobinhoodDividend) (instrument : Option RobinhoodInstrument) :
    StandardizedDividend :=
  { id := dividend.id
    symbol := match instrument with | some i => i.symbol | none => ""
    amount := parseFloat dividend.amount
    paymentDate := .ofString dividend.payableDate
    exDividendDate := .ofString dividend.recordDate
    recordDate := .ofString dividend.recordDate
    status := if dividend.state = "paid" then "paid" else "pending"
    currency := "USD"
    metadata :=
      { source := "robinhood"
        dividendId := some dividend.id
        withholding := parseFloat (jsOr dividend.withholding (.num 0)) } }

end PortfolioMapper

/- ---------------------------------------------------------------- -/
/- RobinhoodClient (src/api/client.ts). -/
/- ---------------------------------------------------------------- -/

/-- AuthTokens (src/types.ts). -/
structure AuthTokens where
  accessToken : String
  refreshToken : String
  expiresIn : ℚ
  tokenType : String
  scope : String
deriving Repr, DecidableEq

/-- The mutable state of a RobinhoodClient: its authTokens field. -/
structure ClientState where
  authTokens : Option AuthTokens
deriving Repr, DecidableEq

/-- RobinhoodClient.isAuthenticated (client.ts lines 171 to 173):
the double-negated truthiness of this.authTokens?.accessToken, so an
empty access-token string counts as unauthenticated. -/
def isAuthenticated (st : ClientState) : Bool :=
  match st.authTokens with
  | some t => t.accessToken ≠ ""
  | none => false

/-- An outbound request as the interceptors see it: its url, the _retry
marker the response interceptor stamps on a request config, and the
Authorization header the request interceptor may set. -/
structure Request where
  url : String
  retryMarked : Bool
  authHeader : Option String
deriving Repr, DecidableEq

/-- An axios error object: error.response?.status and error.config. -/
structure HttpError where
  status : Option Nat
  config : Request
deriving Repr, DecidableEq

/-- The request interceptor (client.ts lines 36 to 44): when a truthy
access token is held, the Authorization header is set to Bearer plus the
token; otherwise the request passes through untouched. -/
def applyRequestInterceptor (st : ClientState) (req : Request) : Request :=
  match st.authTokens with
  | some t =>
      if t.accessToken ≠ "" then
        { req with authHeader := some ("Bearer " ++ t.accessToken) }
      else req
  | none => req

/-- What the response-error interceptor resolves to. -/
inductive InterceptorOutcome where
  | reissue (req : Request)
  | rejectOriginal (e : HttpError)
  | raiseRefreshError (msg : String)
deriving Repr, DecidableEq

/-- Observable result of one run of the response-error interceptor: how
many refresh attempts it performed, what it resolved to, and the client
state it left behind. -/
structure InterceptorResult where
  refreshAttempts : Nat
  outcome : InterceptorOutcome
  finalState : ClientState
deriving Repr, DecidableEq

/-- The response-error interceptor (client.ts lines 46 to 67).  The
refreshResult argument is the outcome of the awaited
refreshAccessToken() call, which on success assigns the returned tokens
to this.authTokens before the original request is re-issued through
this.axios (and hence through the request interceptor); on failure the
interceptor clears this.authTokens and throws the refresh error.  A 401
on a request already marked _retry, a 401 with no refresh token held,
and every non-401 error fall through to Promise.reject(error). -/
def onResponseError (st : ClientState) (err : HttpError)
    (refreshResult : Except String AuthTokens) : InterceptorResult :=
  if err.status = some 401 ∧ err.config.retryMarked = false then
    let orig := { err.config with retryMarked := true }
    let passOn : InterceptorResult :=
      { refreshAttempts := 0
        outcome := .rejectOriginal { err with config := orig }
        finalState := st }
    match st.authTokens with
    | some t =>
      if t.refreshToken ≠ "" then
        match refreshResult with
        | .ok newTokens =>
          let st2 : ClientState := { authTokens := some newTokens }
          { refreshAttempts := 1
            outcome := .reissue (applyRequestInterceptor st2 orig)
            finalState := st2 }
        | .error e =>
          { refreshAttempts := 1
            outcome := .raiseRefreshError e
            finalState := { authTokens := none } }
      else passOn
    | none => passOn
  else
    { refreshAttempts := 0, outcome := .rejectOriginal err, finalState := st }

/-- Errors surfaced by RobinhoodClient.authenticate: the synthetic
Error with message MFA_REQUIRED, an axios error with a response status
and the mfa_required flag of its body, or any other error. -/
inductive ClientError where
  | mfaRequired
  | http (status : Nat) (mfaFlag : Bool)
  | other (msg : String)
deriving Repr, DecidableEq

/-- error.message as the service reads it. -/
def errMessage : ClientError → String
  | .mfaRequired => "MFA_REQUIRED"
  | .http s _ => "Request failed with status code " ++ toString s
  | .other m => m

/-- Outcome of the POST to the authentication endpoint. -/
inductive AuthPostOutcome where
  | success (tokens : AuthTokens)
  | failure (e : ClientError)
deriving Repr, DecidableEq

/-- RobinhoodClient.authenticate (client.ts lines 70 to 93): on success
the returned token set is stored in this.authTokens; on an axios error
with status 400 whose body carries mfa_required it throws
Error(MFA_REQUIRED); every other error is rethrown unchanged, leaving
the stored tokens untouched. -/
def clientAuthenticate (st : ClientState) (outcome : AuthPostOutcome) :
    ClientState × Except ClientError AuthTokens :=
  match outcome with
  | .success t => ({ authTokens := some t }, .ok t)
  | .failure e =>
    match e with
    | .http 400 true => (st, .error .mfaRequired)
    | e2 => (st, .error e2)

/- ---------------------------------------------------------------- -/
/- RobinhoodClient.paginate (client.ts lines 141 to 160). -/
/- ---------------------------------------------------------------- -/

/-- A decoded response body as paginate classifies it: envelope is an
object whose results field is a (truthy) array, arr is a body that is
itself an array (arrays carry no next property), and obj is any other
object together with whatever its next property holds. -/
inductive RhBody (T : Type) where
  | envelope (results : List T) (next : Option String)
  | arr (xs : List T)
  | obj (x : T) (next : Option String)
deriving Repr, DecidableEq

/-- What one loop iteration pushes onto results for a body. -/
def RhBody.resultsOf {T : Type} : RhBody T → List T
  | .envelope rs _ => rs
  | .arr xs => xs
  | .obj x _ => [x]

/-- The next property of a body; arrays have none. -/
def RhBody.nextOf {T : Type} : RhBody T → Option String
  | .envelope _ n => n
  | .arr _ => none
  | .obj _ n => n

/-- response.next || null: a missing or empty-string link is null. -/
def truthyNext : Option String → Option String
  | some s => if s = "" then none else some s
  | none => none

/-- The while loop of paginate, with fuel making the possible
non-termination of the source loop explicit: none means the loop was
still running when the fuel ran out.  acc accumulates results in push
order and reqs counts the GET requests issued. -/
def paginateAux {T : Type} (fetch : String → RhBody T) :
    Nat → String → List T → Nat → Option (List T × Nat)
  | 0, _, _, _ => none
  | fuel + 1, url, acc, reqs =>
    let response := fetch url
    let acc2 := acc ++ response.resultsOf
    let reqs2 := reqs + 1
    match truthyNext response.nextOf with
    | none => some (acc2, reqs2)
    | some u => paginateAux fetch fuel u acc2 reqs2

/-- RobinhoodClient.paginate over an abstract fetch oracle, returning
the flattened results together with the number of requests issued. -/
def paginate {T : Type} (fetch : String → RhBody T) (fuel : Nat) (url : String) :
    Option (List T × Nat) :=
  paginateAux fetch fuel url [] 0

/- ---------------------------------------------------------------- -/
/- RobinhoodService (src/services/robinhood-service.ts). -/
/- ---------------------------------------------------------------- -/

namespace RobinhoodService

/-- RobinhoodService.createStandardizedError (robinhood-service.ts
lines 520 to 528), with the opaque details payload dropped. -/
def createStandardizedError (code message : String) : StandardizedError :=
  { code := code, message := message, timestamp := .now, source := "robinhood" }

/-- RobinhoodService.authenticate (robinhood-service.ts lines 310 to
319): delegates to the client and rewraps failures, distinguishing the
MFA_REQUIRED message from every other failure. -/
def authenticate (st : ClientState) (outcome : AuthPostOutcome) :
    ClientState × Except StandardizedError Unit :=
  let r := clientAuthenticate st outcome
  match r.2 with
  | .ok _ => (r.1, .ok ())
  | .error e =>
    if errMessage e = "MFA_REQUIRED" then
      (r.1, .error (createStandardizedError "MFA_REQUIRED" "Multi-factor authentication required"))
    else
      (r.1, .error (createStandardizedError "AUTH_FAILED" "Authentication failed"))

/-- The per-position loop of RobinhoodService.getPositions
(robinhood-service.ts lines 350 to 370): for each raw position the
instrument is looked up by url, then the quote by the instrument
symbol; if either lookup fails the position is skipped (the catch block
only logs), otherwise the mapped position is pushed. -/
def getPositionsLoop (instrOf : String → Except String RobinhoodInstrument)
    (quoteOf : String → Except String RobinhoodQuote) :
    List RobinhoodPosition → List StandardizedPosition
  | [] => []
  | p :: rest =>
    match instrOf p.instrument with
    | .error _ => getPositionsLoop instrOf quoteOf rest
    | .ok inst =>
      match quoteOf inst.symbol with
      | .error _ => getPositionsLoop instrOf quoteOf rest
      | .ok q =>
        PortfolioMapper.mapPosition p inst (some q) :: getPositionsLoop instrOf quoteOf rest

/-- The per-order loop of RobinhoodService.getTransactions
(robinhood-service.ts lines 450 to 458): a failed instrument lookup
still yields a transaction, mapped without the instrument. -/
def getTransactionsLoop (instrOf : String → Except String RobinhoodInstrument) :
    List RobinhoodOrder → List StandardizedTransaction
  | [] => []
  | o :: rest =>
    (match instrOf o.instrument with
     | .ok inst => PortfolioMapper.mapTransaction o (some inst)
     | .error _ => PortfolioMapper.mapTransaction o none) :: getTransactionsLoop instrOf rest

/-- RobinhoodService.getTransactions (robinhood-service.ts lines 445 to
464): the fetched orders are cut to orders.slice(0, limit) before the
loop; limit defaults to 100 in the TS signature. -/
def getTransactions (instrOf : String → Except String RobinhoodInstrument)
    (orders : List RobinhoodOrder) (limit : Nat) : List StandardizedTransaction :=
  getTransactionsLoop instrOf (orders.take limit)

end RobinhoodService

/- ---------------------------------------------------------------- -/
/- Concrete fixtures, following src/__tests__/mock-data.ts. -/
/- ---------------------------------------------------------------- -/

/-- The mock account of the test fixtures, restricted to the consumed
fields. -/
def mockAccount : RobinhoodAccount :=
  { url := "https://api.robinhood.com/accounts/TEST123456/"
    buyingPower := .num 10000
    cashBalances := some { cash := .num 5000, unclearedDeposits := .num 0, unsettledFunds := .num 0 }
    accountNumber := "TEST123456"
    type := "margin"
    created := "2023-01-01T00:00:00Z"
    updated := "2024-01-01T00:00:00Z" }

/-- The mock instrument of the test fixtures. -/
def mockInstrument : RobinhoodInstrument :=
  { id := "INST123"
    url := "https://api.robinhood.com/instruments/INST123/"
    market := "NASDAQ"
    name := "Apple Inc."
    symbol := "AAPL"
    type := "stock" }

/-- The mock position of the test fixtures: quantity 10 at average buy
price 150. -/
def mockPosition : RobinhoodPosition :=
  { url := "https://api.robinhood.com/positions/TEST123456/INST123/"
    instrument := "https://api.robinhood.com/instruments/INST123/"
    averageBuyPrice := .num 150
    quantity := .num 10
    updatedAt := "2024-01-01T00:00:00Z" }

/-- The mock quote of the test fixtures: last trade 175.25, previous
close 174. -/
def mockQuote : RobinhoodQuote :=
  { askPrice := .num (351 / 2)
    askSize := 100
    bidPrice := .num 175
    bidSize := 200
    lastTradePrice := .num (701 / 4)
    previousClose := .num 174
    symbol := "AAPL"
    tradingHalted := false
    updatedAt := "2024-01-02T15:00:00Z" }

/-- The mock order of the test fixtures: a filled buy of 10 at average
price 150. -/
def mockOrder : RobinhoodOrder :=
  { id := "ORDER123"
    url := "https://api.robinhood.com/orders/ORDER123/"
    instrument := "https://api.robinhood.com/instruments/INST123/"
    averagePrice := .num 150
    fees := .num 0
    state := "filled"
    side := "buy"
    price := .absent
    quantity := .num 10
    created := "2023-01-01T10:00:00Z" }

/-- The mock dividend of the test fixtures: gross amount 5, withholding
0, state paid. -/
def mockDividend : RobinhoodDividend :=
  { id := "DIV123"
    instrument := "https://api.robinhood.com/instruments/INST123/"
    amount := .num 5
    withholding := .num 0
    recordDate := "2024-01-01"
    payableDate := "2024-01-15"
    state := "paid" }

/- ---------------------------------------------------------------- -/
/- Claim C10. -/
/- ---------------------------------------------------------------- -/

/-- Claim C10: for every account and raw portfolio input, the
StandardizedPortfolio returned by mapPortfolio always has
totalGainLoss = 0 and totalGainLossPercent = 0, regardless of the gains
of the positions it aggregates. -/
theorem mapPortfolio_gainLoss_always_zero
    (account : RobinhoodAccount) (portfolio : RobinhoodPortfolio)
    (positions : List StandardizedPosition) :
    (PortfolioMapper.mapPortfolio account portfolio positions).totalGainLoss = some 0 ∧
    (PortfolioMapper.mapPortfolio account portfolio positions).totalGainLossPercent = some 0 :=
  ⟨rfl, rfl⟩

/- ---------------------------------------------------------------- -/
/- Claim C9. -/
/- ---------------------------------------------------------------- -/

/-- The source tag embedded in a StandardizedPosition: the interface in
src/models/standardized.ts gives its metadata only instrumentId,
instrumentUrl, positionUrl and lastUpdated, so there is no source
field to read. -/
def StandardizedPosition.sourceTag (_ : StandardizedPosition) : Option String := none

/-- The source tag embedded in a StandardizedBalance: the interface in
src/models/standardized.ts declares no source field. -/
def StandardizedBalance.sourceTag (_ : StandardizedBalance) : Option String := none

/-- The source tag embedded in a StandardizedQuote: the interface in
src/models/standardized.ts declares no source field. -/
def StandardizedQuote.sourceTag (_ : StandardizedQuote) : Option String := none

/-- Claim C9 counterexample: the balance mapped from the mock account,
the quote mapped from the mock quote and the position mapped from the
mock position embed no source tag at all, so not every Standardized
record carries one. -/
theorem standardized_records_missing_source_tag :
    StandardizedBalance.sourceTag (PortfolioMapper.mapBalance mockAccount) = none ∧
    StandardizedQuote.sourceTag (PortfolioMapper.mapQuote mockQuote none) = none ∧
    StandardizedPosition.sourceTag
      (PortfolioMapper.mapPosition mockPosition mockInstrument (some mockQuote)) = none :=
  ⟨rfl, rfl, rfl⟩

/-- Claim C9 (amended): every Standardized record produced by a Mapper
function carries a timestamp field for provenance, and the Account,
Portfolio, Transaction, HistoricalData, Watchlist and Dividend records
embed the source tag robinhood, but the Position, Balance and Quote
records embed no source tag. -/
theorem standardized_records_provenance
    (account : RobinhoodAccount) (portfolio : RobinhoodPortfolio)
    (positions : List StandardizedPosition) (position : RobinhoodPosition)
    (instrument : RobinhoodInstrument) (quote : RobinhoodQuote)
    (oinst : Option RobinhoodInstrument) (order : RobinhoodOrder)
    (dividend : RobinhoodDividend) (historicals : RobinhoodHistoricals)
    (watchlist : RobinhoodWatchlist) (symbols : List String) :
    (PortfolioMapper.mapAccount account).metadata.source = "robinhood" ∧
    (PortfolioMapper.mapAccount account).metadata.lastUpdated = .ofString account.updated ∧
    (PortfolioMapper.mapPortfolio account portfolio positions).metadata.source = "robinhood" ∧
    (PortfolioMapper.mapPortfolio account portfolio positions).metadata.lastUpdated = .now ∧
    (PortfolioMapper.mapPosition position instrument (some quote)).metadata.lastUpdated
      = .ofString position.updatedAt ∧
    (PortfolioMapper.mapPosition position instrument (some quote)).sourceTag = none ∧
    (PortfolioMapper.mapBalance account).lastUpdated = .ofString account.updated ∧
    (PortfolioMapper.mapBalance account).sourceTag = none ∧
    (PortfolioMapper.mapQuote quote oinst).lastUpdated = .ofString quote.updatedAt ∧
    (PortfolioMapper.mapQuote quote oinst).sourceTag = none ∧
    (PortfolioMapper.mapTransaction order oinst).metadata.source = "robinhood" ∧
    (PortfolioMapper.mapTransaction order oinst).date = .ofString order.created ∧
    (PortfolioMapper.mapHistoricalData historicals).metadata.source = "robinhood" ∧
    (PortfolioMapper.mapWatchlist watchlist symbols).metadata.source = "robinhood" ∧
    (PortfolioMapper.mapWatchlist watchlist symbols).updatedAt = .ofString watchlist.updatedAt ∧
    (PortfolioMapper.mapDividend dividend oinst).metadata.source = "robinhood" ∧
    (PortfolioMapper.mapDividend dividend oinst).paymentDate = .ofString dividend.payableDate :=
  ⟨rfl, rfl, rfl, rfl, rfl, rfl, rfl, rfl, rfl, rfl, rfl, rfl, rfl, rfl, rfl, rfl, rfl⟩

/- ---------------------------------------------------------------- -/
/- Claim C8. -/
/- ---------------------------------------------------------------- -/

/-- The mock dividend with a withholding of 1, as in the mapper test
that expects a net amount of 4. -/
def dividendWithTax : RobinhoodDividend := { mockDividend with withholding := .num 1 }

/-- Claim C8 evaluated on the code at the failing input: for a dividend
with gross amount 5 and withholding 1, mapDividend emits amount 5, the
gross amount, not the net amount 4; the withholding only reaches the
metadata, and the StandardizedDividend interface offers no further
amount field that could carry the net value. -/
theorem mapDividend_amount_is_gross_not_net :
    (PortfolioMapper.mapDividend dividendWithTax none).amount = some 5 ∧
    (PortfolioMapper.mapDividend dividendWithTax none).metadata.withholding = some 1 ∧
    (PortfolioMapper.mapDividend dividendWithTax none).amount ≠ some 4 := by
  refine ⟨rfl, rfl, ?_⟩
  norm_num [PortfolioMapper.mapDividend, dividendWithTax, mockDividend, parseFloat]

/- ---------------------------------------------------------------- -/
/- Claim C7. -/
/- ---------------------------------------------------------------- -/

/-- Claim C7 evaluated on the code at the failing inputs: mapping with
the related instrument absent yields symbol and name undefined for a
transaction, the empty string for a dividend symbol, and name undefined
for a quote, not the documented sentinels UNKNOWN and Unknown
Instrument/Unknown; moreover mapPosition requires the instrument, so an
absent instrument is not even expressible there. -/
theorem mapping_without_instrument_has_no_sentinels :
    (PortfolioMapper.mapTransaction mockOrder none).symbol = none ∧
    (PortfolioMapper.mapTransaction mockOrder none).name = none ∧
    (PortfolioMapper.mapTransaction mockOrder none).symbol ≠ some "UNKNOWN" ∧
    (PortfolioMapper.mapDividend mockDividend none).symbol = "" ∧
    (PortfolioMapper.mapDividend mockDividend none).symbol ≠ "UNKNOWN" ∧
    (PortfolioMapper.mapQuote mockQuote none).name = none := by
  refine ⟨rfl, rfl, ?_, rfl, ?_, rfl⟩ <;> decide

/- ---------------------------------------------------------------- -/
/- Claim C3. -/
/- ---------------------------------------------------------------- -/

/-- The mock position with an unparsable (non-empty, non-numeric)
quantity string. -/
def junkPosition : RobinhoodPosition := { mockPosition with quantity := .junk }

/-- Claim C3 counterexample: an unparsable non-empty quantity string is
not treated as 0: it parses to NaN, and the derived marketValue of the
mapped position is NaN; likewise the dividend gross amount has no
fallback at all, so an empty amount string already yields NaN. -/
theorem unparsable_numeric_string_yields_nan :
    (PortfolioMapper.mapPosition junkPosition mockInstrument (some mockQuote)).quantity
      = none ∧
    (PortfolioMapper.mapPosition junkPosition mockInstrument (some mockQuote)).marketValue
      = none ∧
    (PortfolioMapper.mapPosition junkPosition mockInstrument (some mockQuote)).quantity
      ≠ some 0 ∧
    (PortfolioMapper.mapDividend { mockDividend with amount := .empty } none).amount = none := by
  refine ⟨rfl, rfl, ?_, rfl⟩
  decide

/-- Claim C3 (amended): a numeric string that parseFloat can evaluate is
parsed exactly, and a missing or empty numeric string is treated as 0
in the fields guarded by the or-0 fallback (including the prices of an
absent quote), but a non-empty unparsable string parses to NaN, which
propagates into the derived financial computations. -/
theorem mapper_numeric_parsing
    (position : RobinhoodPosition) (instrument : RobinhoodInstrument) (q : ℚ) :
    (position.quantity = .num q →
      (PortfolioMapper.mapPosition position instrument none).quantity = some q) ∧
    (position.quantity = .absent ∨ position.quantity = .empty →
      (PortfolioMapper.mapPosition position instrument none).quantity = some 0) ∧
    (position.quantity = .junk →
      (PortfolioMapper.mapPosition position instrument none).quantity = none) ∧
    (PortfolioMapper.mapPosition position instrument none).currentPrice = some 0 := by
  refine ⟨?_, ?_, ?_, ?_⟩
  · intro h
    simp [PortfolioMapper.mapPosition, h, jsOr, UpStr.truthy, parseFloat]
  · rintro (h | h) <;>
      simp [PortfolioMapper.mapPosition, h, jsOr, UpStr.truthy, parseFloat]
  · intro h
    simp [PortfolioMapper.mapPosition, h, jsOr, UpStr.truthy, parseFloat]
  · simp [PortfolioMapper.mapPosition, optField, jsOr, UpStr.truthy, parseFloat]

/-- Claim C3 witness: the amended parsing facts instantiated on the
mock position and a junk variant. -/
theorem mapper_numeric_parsing_witness :
    (PortfolioMapper.mapPosition mockPosition mockInstrument none).quantity = some 10 ∧
    (PortfolioMapper.mapPosition junkPosition mockInstrument none).quantity = none :=
  ⟨(mapper_numeric_parsing mockPosition mockInstrument 10).1 rfl,
   (mapper_numeric_parsing junkPosition mockInstrument 10).2.2.1 rfl⟩

/- ---------------------------------------------------------------- -/
/- Claim C4. -/
/- ---------------------------------------------------------------- -/

/-- Claim C4: for every position mapped by mapPosition with parsed
quantity q, average cost a, current price p and previous close c, the
derived fields satisfy marketValue = q * p,
totalGainLoss = q * p - q * a and dayChange = q * (p - c);
totalGainLossPercent is totalGainLoss over the cost basis times 100
when the cost basis is nonzero and 0 otherwise, and dayChangePercent is
(p - c) / c * 100 when c is nonzero and 0 otherwise, never NaN; in
particular the mock position (q 10, a 150, p 175.25, c 174) yields
marketValue 1752.5, totalGainLoss 252.5, totalGainLossPercent 101/6
(about 16.833), dayChange 12.5 and dayChangePercent 125/174 (about
0.7184). -/
theorem mapPosition_arithmetic :
    (∀ (position : RobinhoodPosition) (instrument : RobinhoodInstrument)
        (quote : RobinhoodQuote) (q a p c : ℚ),
      position.quantity = .num q → position.averageBuyPrice = .num a →
      quote.lastTradePrice = .num p → quote.previousClose = .num c →
      (PortfolioMapper.mapPosition position instrument (some quote)).marketValue
          = some (q * p) ∧
      (PortfolioMapper.mapPosition position instrument (some quote)).totalGainLoss
          = some (q * p - q * a) ∧
      (PortfolioMapper.mapPosition position instrument (some quote)).dayChange
          = some (q * (p - c)) ∧
      (PortfolioMapper.mapPosition position instrument (some quote)).totalGainLossPercent
          = (if q * a ≠ 0 then some ((q * p - q * a) / (q * a) * 100) else some 0) ∧
      (PortfolioMapper.mapPosition position instrument (some quote)).dayChangePercent
          = (if c ≠ 0 then some ((p - c) / c * 100) else some 0)) ∧
    ((PortfolioMapper.mapPosition mockPosition mockInstrument (some mockQuote)).marketValue
        = some (3505 / 2) ∧
      (PortfolioMapper.mapPosition mockPosition mockInstrument (some mockQuote)).totalGainLoss
        = some (505 / 2) ∧
      (PortfolioMapper.mapPosition mockPosition mockInstrument (some mockQuote)).dayChange
        = some (25 / 2) ∧
      (PortfolioMapper.mapPosition mockPosition mockInstrument
          (some mockQuote)).totalGainLossPercent = some (101 / 6) ∧
      |(101 : ℚ) / 6 - 16833 / 1000| ≤ 1 / 1000 ∧
      (PortfolioMapper.mapPosition mockPosition mockInstrument
          (some mockQuote)).dayChangePercent = some (125 / 174) ∧
      |(125 : ℚ) / 174 - 7184 / 10000| ≤ 1 / 10000) := by
  have hgen : ∀ (position : RobinhoodPosition) (instrument : RobinhoodInstrument)
      (quote : RobinhoodQuote) (q a p c : ℚ),
      position.quantity = .num q → position.averageBuyPrice = .num a →
      quote.lastTradePrice = .num p → quote.previousClose = .num c →
      (PortfolioMapper.mapPosition position instrument (some quote)).marketValue
          = some (q * p) ∧
      (PortfolioMapper.mapPosition position instrument (some quote)).totalGainLoss
          = some (q * p - q * a) ∧
      (PortfolioMapper.mapPosition position instrument (some quote)).dayChange
          = some (q * (p - c)) ∧
      (PortfolioMapper.mapPosition position instrument (some quote)).totalGainLossPercent
          = (if q * a ≠ 0 then some ((q * p - q * a) / (q * a) * 100) else some 0) ∧
      (PortfolioMapper.mapPosition position instrument (some quote)).dayChangePercent
          = (if c ≠ 0 then some ((p - c) / c * 100) else some 0) := by
    intro position instrument quote q a p c hq ha hp hc
    refine ⟨?_, ?_, ?_, ?_, ?_⟩
    · simp [PortfolioMapper.mapPosition, hq, ha, hp, hc, optField, jsOr, UpStr.truthy,
        parseFloat, jmul]
    · simp [PortfolioMapper.mapPosition, hq, ha, hp, hc, optField, jsOr, UpStr.truthy,
        parseFloat, jmul, jsub]
    · simp [PortfolioMapper.mapPosition, hq, ha, hp, hc, optField, jsOr, UpStr.truthy,
        parseFloat, jmul, jsub, mul_comm]
    · by_cases h : q * a = 0 <;>
        simp [PortfolioMapper.mapPosition, hq, ha, hp, hc, optField, jsOr, UpStr.truthy,
          parseFloat, jmul, jsub, jneZero, jdiv, h]
    · by_cases h : c = 0 <;>
        simp [PortfolioMapper.mapPosition, hq, ha, hp, hc, optField, jsOr, UpStr.truthy,
          parseFloat, jmul, jsub, jneZero, jdiv, h]
  refine ⟨hgen, ?_⟩
  obtain ⟨h1, h2, h3, h4, h5⟩ :=
    hgen mockPosition mockInstrument mockQuote 10 150 (701 / 4) 174 rfl rfl rfl rfl
  rw [if_pos (by norm_num)] at h4
  rw [if_pos (by norm_num)] at h5
  refine ⟨?_, ?_, ?_, ?_, ?_, ?_, ?_⟩
  · rw [h1]; norm_num
  · rw [h2]; norm_num
  · rw [h3]; norm_num
  · rw [h4]; norm_num
  · rw [abs_le]; constructor <;> norm_num
  · rw [h5]; norm_num
  · rw [abs_le]; constructor <;> norm_num

/-- Claim C4 witness: the general arithmetic applied to the mock
fixtures with all four hypotheses discharged concretely. -/
theorem mapPosition_arithmetic_witness :
    (PortfolioMapper.mapPosition mockPosition mockInstrument (some mockQuote)).marketValue
      = some (10 * (701 / 4)) :=
  (mapPosition_arithmetic.1 mockPosition mockInstrument mockQuote 10 150 (701 / 4) 174
    rfl rfl rfl rfl).1

/- ---------------------------------------------------------------- -/
/- Claim C5. -/
/- ---------------------------------------------------------------- -/

/-- The mock token set of the test fixtures. -/
def mockAuthTokens : AuthTokens :=
  { accessToken := "mock-access-token"
    refreshToken := "mock-refresh-token"
    expiresIn := 86400
    tokenType := "Bearer"
    scope := "internal" }

/-- Claim C5: on a successful upstream response the service stores the
returned token set and isAuthenticated becomes true; on an upstream 400
response whose body signals mfa_required the service surfaces a
StandardizedError with code MFA_REQUIRED, distinct from AUTH_FAILED,
and an unauthenticated client stays unauthenticated. -/
theorem service_authenticate_success_and_mfa
    (st : ClientState) (tokens : AuthTokens) :
    (tokens.accessToken ≠ "" →
      (RobinhoodService.authenticate st (.success tokens)).2 = .ok () ∧
      (RobinhoodService.authenticate st (.success tokens)).1.authTokens = some tokens ∧
      isAuthenticated (RobinhoodService.authenticate st (.success tokens)).1 = true) ∧
    (isAuthenticated st = false →
      (RobinhoodService.authenticate st (.failure (.http 400 true))).2
        = .error (RobinhoodService.createStandardizedError "MFA_REQUIRED"
            "Multi-factor authentication required") ∧
      (∀ e : StandardizedError,
        (RobinhoodService.authenticate st (.failure (.http 400 true))).2 = .error e →
        e.code = "MFA_REQUIRED" ∧ e.code ≠ "AUTH_FAILED") ∧
      isAuthenticated (RobinhoodService.authenticate st (.failure (.http 400 true))).1
        = false) := by
  constructor
  · intro h
    refine ⟨rfl, rfl, ?_⟩
    simp [RobinhoodService.authenticate, clientAuthenticate, isAuthenticated, h]
  · intro h
    refine ⟨rfl, ?_, ?_⟩
    · intro e he
      have : e = RobinhoodService.createStandardizedError "MFA_REQUIRED"
          "Multi-factor authentication required" := by
        simpa [RobinhoodService.authenticate, clientAuthenticate, errMessage] using he.symm
      subst this
      exact ⟨rfl, by decide⟩
    · simpa [RobinhoodService.authenticate, clientAuthenticate, errMessage] using h

/-- Claim C5 witness: the success and MFA branches exercised on an
initially unauthenticated client with the mock token set. -/
theorem service_authenticate_witness :
    isAuthenticated (RobinhoodService.authenticate { authTokens := none }
        (.success mockAuthTokens)).1 = true ∧
    isAuthenticated (RobinhoodService.authenticate { authTokens := none }
        (.failure (.http 400 true))).1 = false :=
  ⟨((service_authenticate_success_and_mfa { authTokens := none } mockAuthTokens).1
      (by decide)).2.2,
   ((service_authenticate_success_and_mfa { authTokens := none } mockAuthTokens).2
      rfl).2.2⟩

/- ---------------------------------------------------------------- -/
/- Claim C1. -/
/- ---------------------------------------------------------------- -/

/-- Claim C1: a 401 on a request not yet marked as a retry, with a
refresh token held, performs exactly one refresh attempt and, on
success, re-issues the original request exactly once, marked as a retry
and carrying the new access token; a 401 on a request already marked as
a retry is surfaced as-is with no refresh attempt; a failed refresh
discards the stored token set (isAuthenticated becomes false) and
surfaces the refresh error; a non-401 error never triggers a refresh
and propagates immediately. -/
theorem interceptor_refresh_policy
    (st : ClientState) (err : HttpError) (res : Except String AuthTokens) :
    (∀ t nt, err.status = some 401 → err.config.retryMarked = false →
      st.authTokens = some t → t.refreshToken ≠ "" → res = .ok nt → nt.accessToken ≠ "" →
      (onResponseError st err res).refreshAttempts = 1 ∧
      (onResponseError st err res).outcome
        = .reissue
            { err.config with retryMarked := true, authHeader := some ("Bearer " ++ nt.accessToken) } ∧
      (onResponseError st err res).finalState = { authTokens := some nt }) ∧
    (err.status = some 401 → err.config.retryMarked = true →
      (onResponseError st err res).refreshAttempts = 0 ∧
      (onResponseError st err res).outcome = .rejectOriginal err ∧
      (onResponseError st err res).finalState = st) ∧
    (∀ t e, err.status = some 401 → err.config.retryMarked = false →
      st.authTokens = some t → t.refreshToken ≠ "" → res = .error e →
      (onResponseError st err res).refreshAttempts = 1 ∧
      (onResponseError st err res).outcome = .raiseRefreshError e ∧
      (onResponseError st err res).finalState = { authTokens := none } ∧
      isAuthenticated (onResponseError st err res).finalState = false) ∧
    (err.status ≠ some 401 →
      (onResponseError st err res).refreshAttempts = 0 ∧
      (onResponseError st err res).outcome = .rejectOriginal err ∧
      (onResponseError st err res).finalState = st) := by
  refine ⟨?_, ?_, ?_, ?_⟩
  · intro t nt h1 h2 h3 h4 h5 h6
    subst h5
    simp [onResponseError, h1, h2, h3, h4, applyRequestInterceptor, h6]
  · intro h1 h2
    simp [onResponseError, h1, h2]
  · intro t e h1 h2 h3 h4 h5
    subst h5
    simp [onResponseError, h1, h2, h3, h4, isAuthenticated]
  · intro h1
    simp [onResponseError, h1]

/-- A request that has not been retried yet, without auth header. -/
def freshRequest : Request := { url := "/accounts/", retryMarked := false, authHeader := none }

/-- A 401 error on the fresh request. -/
def err401 : HttpError := { status := some 401, config := freshRequest }

/-- The token set returned by the mocked refresh call. -/
def refreshedTokens : AuthTokens := { mockAuthTokens with accessToken := "new-token" }

/-- Claim C1 witness: the refresh-success branch exercised on a
concrete 401 with the mock tokens held and the refresh returning a new
access token. -/
theorem interceptor_refresh_policy_witness :
    (onResponseError { authTokens := some mockAuthTokens } err401
        (.ok refreshedTokens)).refreshAttempts = 1 ∧
    (onResponseError { authTokens := some mockAuthTokens } err401
        (.ok refreshedTokens)).outcome
      = .reissue
          { url := "/accounts/", retryMarked := true, authHeader := some "Bearer new-token" } := by
  have h := (interceptor_refresh_policy { authTokens := some mockAuthTokens } err401
      (.ok refreshedTokens)).1 mockAuthTokens refreshedTokens rfl rfl rfl (by decide) rfl
      (by decide)
  exact ⟨h.1, h.2.1.trans (by decide)⟩

/- ---------------------------------------------------------------- -/
/- Claim C2. -/
/- ---------------------------------------------------------------- -/

/-- A well-formed forward chain of paginated envelope pages: from the
start url the fetch oracle yields an envelope whose results are the
head page and whose next link (a truthy url) continues the chain; the
last page carries a null next link. -/
inductive Chain {T : Type} (fetch : String → RhBody T) : String → List (List T) → Prop
  | last (url : String) (rs : List T) :
      fetch url = .envelope rs none → Chain fetch url [rs]
  | cons (url nxt : String) (rs : List T) (ps : List (List T)) :
      fetch url = .envelope rs (some nxt) → nxt ≠ "" → Chain fetch nxt ps →
      Chain fetch url (rs :: ps)

/-- Helper: along a chain of pages the pagination loop accumulates all
pages in order and counts one request per page. -/
theorem paginateAux_chain {T : Type} {fetch : String → RhBody T} {url : String}
    {ps : List (List T)} (h : Chain fetch url ps) :
    ∀ (fuel : Nat) (acc : List T) (reqs : Nat), ps.length ≤ fuel →
      paginateAux fetch fuel url acc reqs = some (acc ++ ps.flatten, reqs + ps.length) := by
  induction h with
  | last url rs hf =>
    intro fuel acc reqs hfuel
    match fuel, hfuel with
    | fuel + 1, _ =>
      simp [paginateAux, hf, RhBody.resultsOf, RhBody.nextOf, truthyNext]
  | cons url nxt rs ps hf hne hch ih =>
    intro fuel acc reqs hfuel
    match fuel, hfuel with
    | fuel + 1, hfuel =>
      have hle : ps.length ≤ fuel := by
        simpa using Nat.lt_succ_iff.mp (Nat.lt_of_lt_of_le (by simp) hfuel)
      rw [paginateAux]
      simp only [hf, RhBody.resultsOf, RhBody.nextOf, truthyNext, if_neg hne]
      rw [ih fuel (acc ++ rs) (reqs + 1) hle]
      simp [List.append_assoc]
      omega

/-- Claim C2: over a chain of N envelope pages whose next links point
forward and end in null, paginate returns the concatenation of the
page results in upstream order (of length the sum of the page sizes)
and issues exactly N requests; a body that is directly a sequence is
returned as-is with one request; a single-object body with no results,
not a sequence and no next link yields the one-element sequence of that
object with one request. -/
theorem paginate_envelope_chain_and_shapes :
    (∀ {T : Type} (fetch : String → RhBody T) (url : String) (ps : List (List T))
        (fuel : Nat), Chain fetch url ps → ps.length ≤ fuel →
      paginate fetch fuel url = some (ps.flatten, ps.length) ∧
      ps.flatten.length = (ps.map List.length).sum) ∧
    (∀ {T : Type} (fetch : String → RhBody T) (url : String) (xs : List T),
      fetch url = .arr xs → paginate fetch 1 url = some (xs, 1)) ∧
    (∀ {T : Type} (fetch : String → RhBody T) (url : String) (x : T),
      fetch url = .obj x none → paginate fetch 1 url = some ([x], 1)) := by
  refine ⟨?_, ?_, ?_⟩
  · intro T fetch url ps fuel hch hfuel
    constructor
    · have := paginateAux_chain hch fuel [] 0 hfuel
      simpa [paginate] using this
    · simp [List.length_flatten]
  · intro T fetch url xs hf
    simp [paginate, paginateAux, hf, RhBody.resultsOf, RhBody.nextOf, truthyNext]
  · intro T fetch url x hf
    simp [paginate, paginateAux, hf, RhBody.resultsOf, RhBody.nextOf, truthyNext]

/-- A two-page fetch oracle for the witness. -/
def twoPageFetch : String → RhBody Nat := fun url =>
  if url = "p1" then .envelope [1, 2] (some "p2")
  else .envelope [3] none

/-- Claim C2 witness: the chained, bare-sequence and single-object
cases evaluated on concrete oracles. -/
theorem paginate_witness :
    paginate twoPageFetch 2 "p1" = some ([1, 2, 3], 2) ∧
    paginate (fun _ => RhBody.arr [7, 8]) 1 "u" = some ([7, 8], 1) ∧
    paginate (fun _ => RhBody.obj 9 none) 1 "u" = some ([9], 1) := by
  have hch : Chain twoPageFetch "p1" [[1, 2], [3]] :=
    .cons _ "p2" _ _ (by decide) (by decide) (.last _ _ (by decide))
  refine ⟨?_, ?_, ?_⟩
  · exact ((paginate_envelope_chain_and_shapes.1 twoPageFetch "p1" [[1, 2], [3]] 2 hch
      (by decide)).1).trans (by decide)
  · exact paginate_envelope_chain_and_shapes.2.1 (fun _ => RhBody.arr [7, 8]) "u" [7, 8] rfl
  · exact paginate_envelope_chain_and_shapes.2.2 (fun _ => RhBody.obj 9 none) "u" 9 rfl

/- ---------------------------------------------------------------- -/
/- Claim C6. -/
/- ---------------------------------------------------------------- -/

/-- The per-element enrichment getPositions attempts, as a partial
function: the position mapped with its instrument and quote when both
lookups succeed, none when either fails. -/
def enrichPosition (instrOf : String → Except String RobinhoodInstrument)
    (quoteOf : String → Except String RobinhoodQuote) (p : RobinhoodPosition) :
    Option StandardizedPosition :=
  match instrOf p.instrument with
  | .error _ => none
  | .ok inst =>
    match quoteOf inst.symbol with
    | .error _ => none
    | .ok q => some (PortfolioMapper.mapPosition p inst (some q))

/-- Helper: the getPositions loop keeps exactly the successfully
enriched positions, in upstream order. -/
theorem getPositionsLoop_eq_filterMap
    (instrOf : String → Except String RobinhoodInstrument)
    (quoteOf : String → Except String RobinhoodQuote)
    (ps : List RobinhoodPosition) :
    RobinhoodService.getPositionsLoop instrOf quoteOf ps
      = ps.filterMap (enrichPosition instrOf quoteOf) := by
  induction ps with
  | nil => rfl
  | cons p rest ih =>
    cases h1 : instrOf p.instrument with
    | error e =>
      simp [RobinhoodService.getPositionsLoop, enrichPosition, h1, ih, List.filterMap_cons]
    | ok inst =>
      cases h2 : quoteOf inst.symbol with
      | error e =>
        simp [RobinhoodService.getPositionsLoop, enrichPosition, h1, h2, ih,
          List.filterMap_cons]
      | ok q =>
        simp [RobinhoodService.getPositionsLoop, enrichPosition, h1, h2, ih,
          List.filterMap_cons]

/-- Helper: filterMap keeps length minus the number of elements mapped
to none. -/
theorem length_filterMap_eq_sub {α β : Type} (f : α → Option β) (l : List α) :
    (l.filterMap f).length = l.length - (l.filter (fun a => (f a).isNone)).length := by
  induction l with
  | nil => rfl
  | cons a l ih =>
    have hle := List.length_filter_le (fun a => (f a).isNone) l
    cases h : f a with
    | none => simp [List.filterMap_cons, List.filter_cons, h, ih]
    | some b =>
      simp [List.filterMap_cons, List.filter_cons, h, ih]
      omega

/-- Helper: the getTransactions loop maps every order, enriched when
the instrument lookup succeeds and bare otherwise. -/
theorem getTransactionsLoop_eq_map
    (instrOf : String → Except String RobinhoodInstrument)
    (orders : List RobinhoodOrder) :
    RobinhoodService.getTransactionsLoop instrOf orders
      = orders.map (fun o =>
          match instrOf o.instrument with
          | .ok inst => PortfolioMapper.mapTransaction o (some inst)
          | .error _ => PortfolioMapper.mapTransaction o none) := by
  induction orders with
  | nil => rfl
  | cons o rest ih => simp [RobinhoodService.getTransactionsLoop, List.map_cons, ih]

/-- The instrument lookup oracle that always fails. -/
def failingInstrumentLookup : String → Except String RobinhoodInstrument :=
  fun _ => .error "Not found"

/-- Claim C6 counterexample: getTransactions with the default limit 100
over 101 fetched orders returns only 100 transactions, not all 101. -/
theorem getTransactions_truncates_at_limit :
    (RobinhoodService.getTransactions failingInstrumentLookup
        (List.replicate 101 mockOrder) 100).length = 100 ∧
    (RobinhoodService.getTransactions failingInstrumentLookup
        (List.replicate 101 mockOrder) 100).length ≠ 101 := by
  have h : (RobinhoodService.getTransactions failingInstrumentLookup
      (List.replicate 101 mockOrder) 100).length = 100 := by
    rw [RobinhoodService.getTransactions, getTransactionsLoop_eq_map]
    simp
  exact ⟨h, by rw [h]; decide⟩

/-- Claim C6 (amended): getPositions returns exactly the n - k
successfully enriched positions in upstream order, silently dropping
the k positions whose instrument-or-quote lookup fails; getTransactions
returns the first min(limit, n) transactions (limit defaults to 100) in
upstream order, mapping an order whose instrument lookup fails without
instrument data. -/
theorem partial_failure_policy
    (instrOf : String → Except String RobinhoodInstrument)
    (quoteOf : String → Except String RobinhoodQuote)
    (positions : List RobinhoodPosition) (orders : List RobinhoodOrder) (limit : Nat) :
    RobinhoodService.getPositionsLoop instrOf quoteOf positions
      = positions.filterMap (enrichPosition instrOf quoteOf) ∧
    (RobinhoodService.getPositionsLoop instrOf quoteOf positions).length
      = positions.length
        - (positions.filter (fun p => (enrichPosition instrOf quoteOf p).isNone)).length ∧
    RobinhoodService.getTransactions instrOf orders limit
      = (orders.take limit).map (fun o =>
          match instrOf o.instrument with
          | .ok inst => PortfolioMapper.mapTransaction o (some inst)
          | .error _ => PortfolioMapper.mapTransaction o none) ∧
    (RobinhoodService.getTransactions instrOf orders limit).length
      = min limit orders.length := by
  refine ⟨getPositionsLoop_eq_filterMap instrOf quoteOf positions, ?_, ?_, ?_⟩
  · rw [getPositionsLoop_eq_filterMap, length_filterMap_eq_sub]
  · rw [RobinhoodService.getTransactions, getTransactionsLoop_eq_map]
  · rw [RobinhoodService.getTransactions, getTransactionsLoop_eq_map]
    simp

end Robinhood
